import Mathlib

/-!
# Chapter 01: `Comments.cpp` and `GameOver.cpp`

Both translation units have the same shape: one free function that streams a
string literal and `std::endl` to `std::cout`, and a `main` that calls that
function once and returns `0`.

The embedding passes the process environment explicitly.  `Process` holds what
a run of either program could observe or modify: the content of standard
input, the argument vector, and the text written to standard output so far.
`operator<<` on a string literal appends the literal to the output text,
`std::endl` puts a newline character and flushes; with the output held as one
string a flush changes nothing.  `main` returns its `int` result together with
the final environment.
-/

/-- The environment of a running process: standard input still unread, the
argument vector, and the text written to standard output so far. -/
structure Process where
  stdin : String
  argv : List String
  stdout : String
deriving DecidableEq, Repr

namespace Process

/-- `std::cout << lit` for a string literal: the characters of `lit` are
appended to standard output. -/
def insert (p : Process) (lit : String) : Process :=
  { p with stdout := p.stdout ++ lit }

/-- `std::cout.put(c)`: one character is appended to standard output. -/
def put (p : Process) (c : Char) : Process :=
  { p with stdout := p.stdout.push c }

/-- `std::cout.flush()`: pending output is handed on; the text written is the
same before and after. -/
def flush (p : Process) : Process := p

/-- `std::cout << std::endl`: put a newline, then flush. -/
def endl (p : Process) : Process :=
  (p.put '\n').flush

end Process

namespace Comments

/-- `void commentExample()` of `Comments.cpp`: the single statement
`std::cout << "This is an example of comments in C++." << std::endl;`
(the rest of the body is comments). -/
def commentExample (p : Process) : Process :=
  (p.insert "This is an example of comments in C++.").endl

/-- `int main()` of `Comments.cpp`: `commentExample(); return 0;`. -/
def main (p : Process) : Int × Process :=
  let p1 := commentExample p
  (0, p1)

end Comments

namespace GameOver

/-- `void displayGameOverMessage()` of `GameOver.cpp`:
`std::cout << "Game Over! Thanks for playing." << std::endl;`. -/
def displayGameOverMessage (p : Process) : Process :=
  (p.insert "Game Over! Thanks for playing.").endl

/-- `int main()` of `GameOver.cpp`: `displayGameOverMessage(); return 0;`. -/
def main (p : Process) : Int × Process :=
  let p1 := displayGameOverMessage p
  (0, p1)

end GameOver

/-! ## Auxiliary facts about strings and the stream operations -/

theorem String.push_eq_append_singleton (s : String) (c : Char) :
    s.push c = s ++ String.singleton c := by
  cases s; rfl

theorem Process.stdout_insert_endl (p : Process) (lit : String) :
    ((p.insert lit).endl).stdout = p.stdout ++ (lit ++ "\n") := by
  simp only [Process.endl, Process.flush, Process.put, Process.insert,
    String.push_eq_append_singleton, String.append_assoc]
  rfl

theorem Comments.stdout_commentExample (p : Process) :
    (Comments.commentExample p).stdout
      = p.stdout ++ "This is an example of comments in C++.\n" := by
  unfold Comments.commentExample
  rw [Process.stdout_insert_endl]
  rfl

theorem GameOver.stdout_displayGameOverMessage (p : Process) :
    (GameOver.displayGameOverMessage p).stdout
      = p.stdout ++ "Game Over! Thanks for playing.\n" := by
  unfold GameOver.displayGameOverMessage
  rw [Process.stdout_insert_endl]
  rfl

theorem String.join_cons_eq (a : String) (l : List String) :
    String.join (a :: l) = a ++ String.join l := by
  have gen : ∀ (xs : List String) (init : String),
      List.foldl (fun r s => r ++ s) init xs
        = init ++ List.foldl (fun r s => r ++ s) "" xs := by
    intro xs
    induction xs with
    | nil => intro init; simp
    | cons x xs ih =>
      intro init
      simp only [List.foldl_cons]
      rw [ih (init ++ x), ih ("" ++ x)]
      simp [String.append_assoc]
  simp only [String.join, List.foldl_cons]
  rw [gen l ("" ++ a)]
  simp

theorem String.length_join_replicate (n : Nat) (a : String) :
    (String.join (List.replicate n a)).length = n * a.length := by
  induction n with
  | zero => simp [String.join]
  | succ k ih =>
    rw [List.replicate_succ, String.join_cons_eq, String.length_append, ih]
    ring

/-- A function that appends `line` to standard output on every call has
appended `line` exactly `n` times after `n` calls. -/
theorem Process.stdout_iterate (f : Process → Process) (line : String)
    (hf : ∀ p, (f p).stdout = p.stdout ++ line) (n : Nat) (p : Process) :
    (f^[n] p).stdout = p.stdout ++ String.join (List.replicate n line) := by
  induction n generalizing p with
  | zero => simp [String.join]
  | succ k ih =>
    rw [Function.iterate_succ_apply, ih (f p), hf p, List.replicate_succ,
      String.join_cons_eq, String.append_assoc]

/-- When `n` calls of an appending function leave the same output text as one
call, and the appended line is not empty, then `n = 1`. -/
theorem Process.iterate_count_unique (f : Process → Process) (line : String)
    (hf : ∀ p, (f p).stdout = p.stdout ++ line) (hl : 0 < line.length)
    (n : Nat) (p : Process) (h : (f p).stdout = (f^[n] p).stdout) : n = 1 := by
  rw [Process.stdout_iterate f line hf n p, hf p] at h
  have hlen := congrArg String.length h
  simp only [String.length_append, String.length_join_replicate] at hlen
  have h1 : n * line.length = 1 * line.length := by omega
  exact Nat.eq_of_mul_eq_mul_right hl h1

/-! ## The programs' contracts -/

/-- C1: started with nothing on standard output, `main` of `Comments.cpp`
leaves exactly `This is an example of comments in C++.` followed by one
newline on standard output, and returns 0; this holds for every standard input
and argument vector. -/
theorem Comments.main_output_comments (input : String) (args : List String) :
    (Comments.main ⟨input, args, ""⟩).2.stdout
        = "This is an example of comments in C++.\n"
      ∧ (Comments.main ⟨input, args, ""⟩).2.stdout.data
        = "This is an example of comments in C++.".data ++ ['\n']
      ∧ (Comments.main ⟨input, args, ""⟩).1 = 0 := by
  refine ⟨?_, ?_, rfl⟩
  · show (Comments.commentExample ⟨input, args, ""⟩).stdout = _
    rw [Comments.stdout_commentExample]; rfl
  · show (Comments.commentExample ⟨input, args, ""⟩).stdout.data = _
    rw [Comments.stdout_commentExample]; rfl

/-- C2: started with nothing on standard output, `main` of `GameOver.cpp`
leaves exactly `Game Over! Thanks for playing.` followed by one newline on
standard output, and returns 0; this holds for every standard input and
argument vector. -/
theorem GameOver.main_output_gameover (input : String) (args : List String) :
    (GameOver.main ⟨input, args, ""⟩).2.stdout
        = "Game Over! Thanks for playing.\n"
      ∧ (GameOver.main ⟨input, args, ""⟩).2.stdout.data
        = "Game Over! Thanks for playing.".data ++ ['\n']
      ∧ (GameOver.main ⟨input, args, ""⟩).1 = 0 := by
  refine ⟨?_, ?_, rfl⟩
  · show (GameOver.displayGameOverMessage ⟨input, args, ""⟩).stdout = _
    rw [GameOver.stdout_displayGameOverMessage]; rfl
  · show (GameOver.displayGameOverMessage ⟨input, args, ""⟩).stdout.data = _
    rw [GameOver.stdout_displayGameOverMessage]; rfl

/-- C3: for each of the two programs, any two invocations of `main` that both
start with an empty standard output end with the same output text and the
same exit status. -/
theorem main_deterministic (p q : Process)
    (hp : p.stdout = "") (hq : q.stdout = "") :
    ((Comments.main p).2.stdout = (Comments.main q).2.stdout
        ∧ (Comments.main p).1 = (Comments.main q).1)
      ∧ ((GameOver.main p).2.stdout = (GameOver.main q).2.stdout
        ∧ (GameOver.main p).1 = (GameOver.main q).1) := by
  refine ⟨⟨?_, rfl⟩, ⟨?_, rfl⟩⟩
  · show (Comments.commentExample p).stdout = (Comments.commentExample q).stdout
    rw [Comments.stdout_commentExample, Comments.stdout_commentExample, hp, hq]
  · show (GameOver.displayGameOverMessage p).stdout
      = (GameOver.displayGameOverMessage q).stdout
    rw [GameOver.stdout_displayGameOverMessage,
      GameOver.stdout_displayGameOverMessage, hp, hq]

theorem main_deterministic_witness :
    ((⟨"yes\n", ["a.out", "-v"], ""⟩ : Process).stdout = ""
      ∧ (⟨"", [], ""⟩ : Process).stdout = "")
    ∧ (((Comments.main ⟨"yes\n", ["a.out", "-v"], ""⟩).2.stdout
          = (Comments.main ⟨"", [], ""⟩).2.stdout
        ∧ (Comments.main ⟨"yes\n", ["a.out", "-v"], ""⟩).1
          = (Comments.main ⟨"", [], ""⟩).1)
      ∧ ((GameOver.main ⟨"yes\n", ["a.out", "-v"], ""⟩).2.stdout
          = (GameOver.main ⟨"", [], ""⟩).2.stdout
        ∧ (GameOver.main ⟨"yes\n", ["a.out", "-v"], ""⟩).1
          = (GameOver.main ⟨"", [], ""⟩).1)) :=
  ⟨⟨rfl, rfl⟩, main_deterministic ⟨"yes\n", ["a.out", "-v"], ""⟩ ⟨"", [], ""⟩ rfl rfl⟩

/-- C4: for each of the two programs and every prior output text, the output
text and the exit status of `main` are the same for any two standard-input
contents and any two argument vectors; `main` also leaves standard input
unread and the argument vector untouched. -/
theorem main_input_independent (out in1 in2 : String) (args1 args2 : List String) :
    ((Comments.main ⟨in1, args1, out⟩).2.stdout
          = (Comments.main ⟨in2, args2, out⟩).2.stdout
        ∧ (Comments.main ⟨in1, args1, out⟩).1 = (Comments.main ⟨in2, args2, out⟩).1
        ∧ (Comments.main ⟨in1, args1, out⟩).2.stdin = in1
        ∧ (Comments.main ⟨in1, args1, out⟩).2.argv = args1)
      ∧ ((GameOver.main ⟨in1, args1, out⟩).2.stdout
          = (GameOver.main ⟨in2, args2, out⟩).2.stdout
        ∧ (GameOver.main ⟨in1, args1, out⟩).1 = (GameOver.main ⟨in2, args2, out⟩).1
        ∧ (GameOver.main ⟨in1, args1, out⟩).2.stdin = in1
        ∧ (GameOver.main ⟨in1, args1, out⟩).2.argv = args1) :=
  ⟨⟨rfl, rfl, rfl, rfl⟩, ⟨rfl, rfl, rfl, rfl⟩⟩

/-- C5: for each of the two programs `main` is a total function of the
environment and returns 0 from every initial environment (any standard input,
argument vector and prior output); the exit statuses that some environment
can produce are exactly the status 0. -/
theorem main_exit_zero :
    (∀ p : Process, (Comments.main p).1 = 0)
      ∧ (∀ p : Process, (GameOver.main p).1 = 0)
      ∧ (∀ c : Int, (∃ p : Process, (Comments.main p).1 = c) ↔ c = 0)
      ∧ (∀ c : Int, (∃ p : Process, (GameOver.main p).1 = c) ↔ c = 0) := by
  refine ⟨fun _ => rfl, fun _ => rfl, fun c => ⟨?_, ?_⟩, fun c => ⟨?_, ?_⟩⟩
  · rintro ⟨p, hp⟩; exact hp.symm
  · intro hc; exact ⟨⟨"", [], ""⟩, hc.symm⟩
  · rintro ⟨p, hp⟩; exact hp.symm
  · intro hc; exact ⟨⟨"", [], ""⟩, hc.symm⟩

/-! ## `main` against its free function, and the frame of the free function -/

theorem Comments.comment_line_length_pos :
    0 < ("This is an example of comments in C++.\n" : String).length := by decide

theorem GameOver.gameover_line_length_pos :
    0 < ("Game Over! Thanks for playing.\n" : String).length := by decide

/-- C6: in each program the environment after `main` is the environment after
one call of the program's free function, for every initial environment, and
the number of calls that gives this environment is exactly one; the text
`main` adds to a prior output is the text it writes to an empty output, and
that text holds exactly one newline character, which is its last character. -/
theorem main_calls_once :
    ((∀ p : Process, (Comments.main p).2 = Comments.commentExample p)
      ∧ (∀ (p : Process) (n : Nat),
          (Comments.main p).2 = Comments.commentExample^[n] p ↔ n = 1)
      ∧ (∀ p : Process, (Comments.main p).2.stdout
          = p.stdout ++ (Comments.main { p with stdout := "" }).2.stdout)
      ∧ (∀ (input : String) (args : List String),
          (Comments.main ⟨input, args, ""⟩).2.stdout.data.count '\n' = 1
          ∧ (Comments.main ⟨input, args, ""⟩).2.stdout.data.getLast? = some '\n'))
    ∧ ((∀ p : Process, (GameOver.main p).2 = GameOver.displayGameOverMessage p)
      ∧ (∀ (p : Process) (n : Nat),
          (GameOver.main p).2 = GameOver.displayGameOverMessage^[n] p ↔ n = 1)
      ∧ (∀ p : Process, (GameOver.main p).2.stdout
          = p.stdout ++ (GameOver.main { p with stdout := "" }).2.stdout)
      ∧ (∀ (input : String) (args : List String),
          (GameOver.main ⟨input, args, ""⟩).2.stdout.data.count '\n' = 1
          ∧ (GameOver.main ⟨input, args, ""⟩).2.stdout.data.getLast? = some '\n')) := by
  refine ⟨⟨fun _ => rfl, ?_, ?_, ?_⟩, ⟨fun _ => rfl, ?_, ?_, ?_⟩⟩
  · intro p n
    constructor
    · intro h
      exact Process.iterate_count_unique Comments.commentExample _
        Comments.stdout_commentExample Comments.comment_line_length_pos n p
        (congrArg Process.stdout h)
    · rintro rfl; rfl
  · intro p
    show (Comments.commentExample p).stdout
      = p.stdout ++ (Comments.commentExample { p with stdout := "" }).stdout
    rw [Comments.stdout_commentExample, Comments.stdout_commentExample]
    rfl
  · intro input args
    show (Comments.commentExample ⟨input, args, ""⟩).stdout.data.count '\n' = 1
      ∧ (Comments.commentExample ⟨input, args, ""⟩).stdout.data.getLast? = some '\n'
    rw [Comments.stdout_commentExample]
    dsimp only
    exact ⟨by decide, by decide⟩
  · intro p n
    constructor
    · intro h
      exact Process.iterate_count_unique GameOver.displayGameOverMessage _
        GameOver.stdout_displayGameOverMessage GameOver.gameover_line_length_pos n p
        (congrArg Process.stdout h)
    · rintro rfl; rfl
  · intro p
    show (GameOver.displayGameOverMessage p).stdout
      = p.stdout ++ (GameOver.displayGameOverMessage { p with stdout := "" }).stdout
    rw [GameOver.stdout_displayGameOverMessage, GameOver.stdout_displayGameOverMessage]
    rfl
  · intro input args
    show (GameOver.displayGameOverMessage ⟨input, args, ""⟩).stdout.data.count '\n' = 1
      ∧ (GameOver.displayGameOverMessage ⟨input, args, ""⟩).stdout.data.getLast?
        = some '\n'
    rw [GameOver.stdout_displayGameOverMessage]
    dsimp only
    exact ⟨by decide, by decide⟩

/-- C7: `commentExample` and `displayGameOverMessage` only append to standard
output: for every environment the output after the call is the prior output
followed by the function's line and a newline, the prior output is an initial
segment of it, standard input and the argument vector are unchanged, and `n`
calls in sequence append the line `n` times. -/
theorem free_functions_append (p : Process) :
    ((Comments.commentExample p).stdout
          = p.stdout ++ "This is an example of comments in C++.\n"
        ∧ p.stdout.data <+: (Comments.commentExample p).stdout.data
        ∧ (Comments.commentExample p).stdin = p.stdin
        ∧ (Comments.commentExample p).argv = p.argv
        ∧ ∀ n : Nat, (Comments.commentExample^[n] p).stdout
            = p.stdout ++ String.join
                (List.replicate n "This is an example of comments in C++.\n"))
      ∧ ((GameOver.displayGameOverMessage p).stdout
          = p.stdout ++ "Game Over! Thanks for playing.\n"
        ∧ p.stdout.data <+: (GameOver.displayGameOverMessage p).stdout.data
        ∧ (GameOver.displayGameOverMessage p).stdin = p.stdin
        ∧ (GameOver.displayGameOverMessage p).argv = p.argv
        ∧ ∀ n : Nat, (GameOver.displayGameOverMessage^[n] p).stdout
            = p.stdout ++ String.join
                (List.replicate n "Game Over! Thanks for playing.\n")) := by
  refine ⟨⟨Comments.stdout_commentExample p, ?_, rfl, rfl, fun n => ?_⟩,
    ⟨GameOver.stdout_displayGameOverMessage p, ?_, rfl, rfl, fun n => ?_⟩⟩
  · rw [Comments.stdout_commentExample, String.data_append]
    exact List.prefix_append _ _
  · exact Process.stdout_iterate _ _ Comments.stdout_commentExample n p
  · rw [GameOver.stdout_displayGameOverMessage, String.data_append]
    exact List.prefix_append _ _
  · exact Process.stdout_iterate _ _ GameOver.stdout_displayGameOverMessage n p
